import Mathlib

/-!
Verification of the Unified Query Editor's query execution and result
normalization engine against its specification.

The definitions below are a shallow embedding of the two server routes
(src/server/route/snowflake.js — the warehouse path — and the Kubernetes
route file) together with their helper functions: the command whitelist,
the SQL-injection guard, the SQL-like resource-query translator
(executeSQLLikeQuery), the result normalizer (formatKubernetesResult) and
the stdout resolution step of executeKubectl.  Backend collaborators
(the Snowflake driver, the Kubernetes API client, the spawned kubectl
process) are modelled as environments supplying their resolved outcomes,
as the spec treats their correctness as assumed.  Effects that matter to
the claims (opening/destroying a warehouse connection, executing a
statement, spawning a process) are recorded in an explicit event trace.
-/

/-- Scalar JavaScript values as they occur in the projected resource
objects and normalized rows.  `undefined` is the value produced by a
property access on a missing key. -/
inductive JSVal where
  | str (s : String)
  | num (n : Int)
  | bool (b : Bool)
  | null
  | undefined
deriving DecidableEq, Repr

/-- JavaScript truthiness for the scalar values of the model: `""`, `0`,
`false`, `null` and `undefined` are falsy, everything else truthy. -/
def jsTruthy : JSVal → Bool
  | .str s => s != ""
  | .num n => n != 0
  | .bool b => b
  | .null => false
  | .undefined => false

/-- The `v || ''` idiom used by the normalizer at `obj[col] || ''`:
a falsy value is replaced by the empty string. -/
def jsOrEmpty (v : JSVal) : JSVal :=
  if jsTruthy v then v else .str ""

/-- A JavaScript object, as an association list in insertion order.
Objects built by the routes have pairwise distinct keys. -/
abbrev JSObj : Type := List (String × JSVal)

/-- `Object.keys`: the keys in insertion order. -/
def jsKeys (o : JSObj) : List String := o.map Prod.fst

/-- Property access `o[c]`: the value bound to the key, `undefined` when
the key is absent. -/
def jsLookup (o : JSObj) (c : String) : JSVal :=
  match o.find? (fun p => p.1 == c) with
  | some p => p.2
  | none => .undefined

/-- Whitespace recognized by JavaScript's `trim` and `\s` (ASCII part
plus no-break space; further Unicode space classes are not used by any
input of this development). -/
def isJsWs (c : Char) : Bool :=
  c = ' ' || c = '\t' || c = '\n' || c = '\r' || c = '\x0b' || c = '\x0c' || c = '\xa0'

/-- JavaScript `String.prototype.trim`. -/
def jsTrimStr (s : String) : String :=
  String.mk (((s.data.dropWhile isJsWs).reverse.dropWhile isJsWs).reverse)

/-- JavaScript `String.prototype.toUpperCase` (ASCII). -/
def jsToUpper (s : String) : String := String.mk (s.data.map Char.toUpper)

/-- JavaScript `String.prototype.toLowerCase` (ASCII); used to model the
case-insensitive `/i` regex flag by case-folding the input. -/
def jsToLower (s : String) : String := String.mk (s.data.map Char.toLower)

/-- Match a literal character sequence, then continue with `p`. -/
def litThen : List Char → (List Char → Bool) → List Char → Bool
  | [], p, l => p l
  | _ :: _, _, [] => false
  | c :: s, p, d :: l => c = d && litThen s p l

/-- Match `\s*` (any run of whitespace, with backtracking), then `p`. -/
def wsStarThen (p : List Char → Bool) : List Char → Bool
  | [] => p []
  | c :: l => p (c :: l) || (isJsWs c && wsStarThen p l)

/-- Match `\s+` (at least one whitespace character), then `p`. -/
def wsPlusThen (p : List Char → Bool) : List Char → Bool
  | [] => false
  | c :: l => isJsWs c && wsStarThen p l

/-- Match `.*` (any run of non-line-terminator characters), then `p`. -/
def anyStarThen (p : List Char → Bool) : List Char → Bool
  | [] => p []
  | c :: l => p (c :: l) || (!(c = '\n' || c = '\r') && anyStarThen p l)

/-- Does the pattern `m` match starting at some position of the text? -/
def existsAt (m : List Char → Bool) : List Char → Bool
  | [] => m []
  | c :: l => m (c :: l) || existsAt m (l)

/-- Trivially succeeding continuation: the pattern has been consumed. -/
def matchEnd : List Char → Bool := fun _ => true

/-- `/drop\s+table/i` applied to the case-folded statement. -/
def matchDropTable (l : List Char) : Bool :=
  existsAt (litThen "drop".data (wsPlusThen (litThen "table".data matchEnd))) l

/-- `/drop\s+database/i` applied to the case-folded statement. -/
def matchDropDatabase (l : List Char) : Bool :=
  existsAt (litThen "drop".data (wsPlusThen (litThen "database".data matchEnd))) l

/-- `/delete\s+from.*where\s*1\s*=\s*1/i` applied to the case-folded
statement. -/
def matchBlanketDelete (l : List Char) : Bool :=
  existsAt (litThen "delete".data (wsPlusThen (litThen "from".data
    (anyStarThen (litThen "where".data (wsStarThen (litThen "1".data
      (wsStarThen (litThen "=".data (wsStarThen (litThen "1".data matchEnd))))))))))) l

/-- `/union.*select/i` applied to the case-folded statement. -/
def matchUnionSelect (l : List Char) : Bool :=
  existsAt (litThen "union".data (anyStarThen (litThen "select".data matchEnd))) l

/-- The SQL-injection guard of the warehouse route: `suspiciousPatterns
.some(pattern => pattern.test(query))` over the four case-insensitive
patterns. -/
def isSuspicious (query : String) : Bool :=
  let l := (jsToLower query).data
  matchDropTable l || matchDropDatabase l || matchBlanketDelete l || matchUnionSelect l

example : isSuspicious "DROP TABLE users" = true := by decide
example : isSuspicious "SELECT * FROM x UNION SELECT * FROM y" = true := by decide
example : isSuspicious "DELETE FROM accounts WHERE 1=1" = true := by decide
example : isSuspicious "select * from pods" = false := by decide
example : isSuspicious "get nodes" = false := by decide
example : isSuspicious "" = false := by decide

/-!  ## Result normalizer (formatKubernetesResult)

The source of the plain-text branch reads, verbatim:

    const lines = result.split('\\n').filter(line => line.trim());
    ...
    const headers = lines[0].split(/\\s+/).filter(h => h);
    const rows = lines.slice(1).map(line => line.split(/\\s+/).filter(cell => cell));

Note the doubled backslashes: `'\\n'` is the two-character string
backslash + `n` (not a newline), and the regex `/\\s+/` matches a literal
backslash followed by a run of the letter `s` (not whitespace).  The
embedding reproduces exactly that behaviour.  -/

/-- JavaScript `result.split('\\n')`: split at each occurrence of the
two-character sequence backslash + `n`.  The accumulator holds the
current segment reversed. -/
def splitBackslashNAux : List Char → List Char → List String
  | [], cur => [String.mk cur.reverse]
  | '\\' :: 'n' :: rest, cur => String.mk cur.reverse :: splitBackslashNAux rest []
  | c :: rest, cur => splitBackslashNAux rest (c :: cur)

/-- `result.split('\\n')` on a string. -/
def splitBackslashN (s : String) : List String := splitBackslashNAux s.data []

/-- Split at each occurrence of a backslash immediately followed by one
letter `s` (the mandatory part of a `/\\s+/` match).  A lone backslash,
or a backslash not followed by `s`, is ordinary text. -/
def splitBackslashSPair : List Char → List Char → List (List Char)
  | [], cur => [cur.reverse]
  | '\\' :: 's' :: rest, cur => cur.reverse :: splitBackslashSPair rest []
  | c :: rest, cur => splitBackslashSPair rest (c :: cur)

/-- `line.split(/\\s+/)`: split at each leftmost match of a literal
backslash followed by a greedy run of the letter `s`.  After the
mandatory backslash + `s` pair, any further `s` characters belong to the
same greedy match, so they are stripped from the front of every segment
that follows a match. -/
def splitBackslashS (s : String) : List String :=
  match splitBackslashSPair s.data [] with
  | [] => []
  | firstSeg :: restSegs =>
    String.mk firstSeg ::
      restSegs.map (fun seg => String.mk (seg.dropWhile (fun c => c = 's')))

/-- The native result shapes the routes feed into the normalizer: plain
text (kubectl stdout that did not parse as JSON), an array of flat
key/value objects (the resource-query translator's output and flat JSON
arrays), or a single flat object. -/
inductive KubeResult where
  | text (s : String)
  | list (objs : List JSObj)
  | obj (o : JSObj)
deriving DecidableEq

/-- The canonical result envelope: either a tabular result
(columns/rows/rowCount) or a message result (message/rowCount). -/
inductive ResultEnvelope where
  | tabular (columns : List String) (rows : List (List JSVal)) (rowCount : Nat)
  | message (message : String) (rowCount : Nat)
deriving DecidableEq

/-- One entry of `JSON.stringify` output for a scalar value; `undefined`
properties are omitted by stringify, hence `Option`. -/
def jsonStringifyVal : JSVal → Option String
  | .str s => some ("\"" ++ s ++ "\"")
  | .num n => some (toString n)
  | .bool b => some (cond b "true" "false")
  | .null => some "null"
  | .undefined => none

/-- `JSON.stringify(result, null, 2)` for a flat object (string contents
are assumed to need no escaping, which holds for every object this
development constructs). -/
def jsStringifyObj (o : JSObj) : String :=
  let entries := o.filterMap (fun p =>
    (jsonStringifyVal p.2).map (fun v => "\"" ++ p.1 ++ "\": " ++ v))
  match entries with
  | [] => "\x7b\x7d"
  | _ => "\x7b\n  " ++ String.intercalate ",\n  " entries ++ "\n\x7d"

/-- `formatKubernetesResult` from the Kubernetes route: normalizes a
backend-native result into the canonical envelope.  The plain-text
branch follows the source's literal `'\\n'` / `/\\s+/` separators (see
the section comment). -/
def formatKubernetesResult : KubeResult → ResultEnvelope
  | .text result =>
    let lines := (splitBackslashN result).filter (fun line => jsTrimStr line != "")
    if lines.length > 1 then
      let headers := (splitBackslashS (lines.headD "")).filter (fun h => h != "")
      let rows := lines.tail.map (fun line => (splitBackslashS line).filter (fun cell => cell != ""))
      .tabular headers (rows.map (fun r => r.map JSVal.str)) rows.length
    else
      .message result 0
  | .list objs =>
    match objs with
    | [] => .message "No results found" 0
    | first :: _ =>
      let columns := jsKeys first
      let rows := objs.map (fun o => columns.map (fun col => jsOrEmpty (jsLookup o col)))
      .tabular columns rows rows.length
  | .obj o => .message (jsStringifyObj o) 1

example : formatKubernetesResult (.text "NAME STATUS\nnode1 Ready") =
    .message "NAME STATUS\nnode1 Ready" 0 := by decide

example : formatKubernetesResult (.text "a\\nb\\nc") =
    .tabular ["a"] [[.str "b"], [.str "c"]] 2 := by decide

example : formatKubernetesResult (.list []) = .message "No results found" 0 := by decide

example : formatKubernetesResult
    (.list [[("a", .num 1), ("b", .num 0)], [("a", .str "x")]]) =
    .tabular ["a", "b"] [[.num 1, .str ""], [.str "x", .str ""]] 2 := by decide

/-!  ## Kubernetes route: command parsing, whitelist and the SQL-like
resource-query translator  -/

/-- JavaScript `str.split(/\s+/)` (a genuine whitespace split — this is
the correctly escaped regex of the execute route's command parsing, in
contrast to the normalizer's `/\\s+/`).  The flag records whether the
scan is inside a whitespace run whose token was already emitted. -/
def splitWsAux : List Char → List Char → Bool → List String
  | [], _, true => [""]
  | [], cur, false => [String.mk cur.reverse]
  | c :: rest, cur, inWs =>
    if isJsWs c then
      if inWs then splitWsAux rest cur true
      else String.mk cur.reverse :: splitWsAux rest [] true
    else
      splitWsAux rest (c :: (if inWs then [] else cur)) false

/-- `str.split(/\s+/)` on a string. -/
def jsSplitWs (s : String) : List String := splitWsAux s.data [] false

example : jsSplitWs "get pods -n  kube-system" = ["get", "pods", "-n", "kube-system"] := by
  decide

example : jsSplitWs "" = [""] := by decide

/-- The `allowedCommands` whitelist of the Kubernetes execute route. -/
def allowedCommands : List String :=
  ["get", "describe", "logs", "top", "explain",
   "api-resources", "api-versions", "cluster-info"]

/-- Kubernetes `metadata` as consumed by the projections; every leaf may
be absent on a partial object. -/
structure ObjectMeta where
  name : Option String
  «namespace» : Option String
  creationTimestamp : Option String
deriving DecidableEq

/-- One entry of `status.containerStatuses`. -/
structure ContainerStatus where
  restartCount : Option Int
deriving DecidableEq

/-- Pod `status` as consumed by the projection; the intermediate lists
and objects may themselves be absent. -/
structure PodStatus where
  phase : Option String
  containerStatuses : Option (List ContainerStatus)
deriving DecidableEq

/-- A pod object returned by the orchestration client; `metadata` and
`status` may be absent on a partial object. -/
structure Pod where
  metadata : Option ObjectMeta
  status : Option PodStatus
deriving DecidableEq

/-- One entry of node `status.conditions`. -/
structure NodeCondition where
  type : Option String
  status : Option String
deriving DecidableEq

/-- Node `status.nodeInfo`. -/
structure NodeInfo where
  kubeletVersion : Option String
  osImage : Option String
  architecture : Option String
deriving DecidableEq

/-- Node `status`. -/
structure NodeStatus where
  conditions : Option (List NodeCondition)
  nodeInfo : Option NodeInfo
deriving DecidableEq

/-- A node object returned by the orchestration client. -/
structure Node where
  metadata : Option ObjectMeta
  status : Option NodeStatus
deriving DecidableEq

/-- Deployment `status`. -/
structure DeploymentStatus where
  replicas : Option Int
  readyReplicas : Option Int
  availableReplicas : Option Int
deriving DecidableEq

/-- A deployment object returned by the orchestration client. -/
structure Deployment where
  metadata : Option ObjectMeta
  status : Option DeploymentStatus
deriving DecidableEq

/-- One entry of service `spec.ports`.  `targetPort` is held already
rendered (Kubernetes allows both numbers and strings there, and the
route only ever interpolates it into a template string). -/
structure ServicePort where
  port : Option Int
  targetPort : Option String
  protocol : Option String
deriving DecidableEq

/-- Service `spec`. -/
structure ServiceSpec where
  type : Option String
  clusterIP : Option String
  ports : Option (List ServicePort)
deriving DecidableEq

/-- A service object returned by the orchestration client. -/
structure Service where
  metadata : Option ObjectMeta
  spec : Option ServiceSpec
deriving DecidableEq

/-- The error message of a JavaScript property access on `undefined`
(`pod.status.phase` when `pod.status` is absent, and similar). -/
def typeErrorMsg : String := "TypeError: Cannot read properties of undefined"

/-- A present string leaf becomes that string; an absent leaf is the
`undefined` a JavaScript property access yields. -/
def jsOfOptStr : Option String → JSVal
  | some s => .str s
  | none => .undefined

/-- `pod.status.containerStatuses?.[0]?.restartCount || 0`: optional
chaining collapses an absent list, an empty list and an absent count to
`undefined`, and `|| 0` turns both `undefined` and `0` into `0`. -/
def podRestarts (st : PodStatus) : Int :=
  match st.containerStatuses with
  | none => 0
  | some cs =>
    match cs.head? with
    | none => 0
    | some c => c.restartCount.getD 0

/-- The pod projection of `executeSQLLikeQuery`.  Accessing `metadata`
or `status` fields of a pod lacking them throws, as in JavaScript. -/
def projectPod (p : Pod) : Except String JSObj :=
  match p.metadata with
  | none => .error typeErrorMsg
  | some m =>
    match p.status with
    | none => .error typeErrorMsg
    | some st => .ok
      [("name", jsOfOptStr m.name),
       ("namespace", jsOfOptStr m.«namespace»),
       ("status", jsOfOptStr st.phase),
       ("created", jsOfOptStr m.creationTimestamp),
       ("restarts", .num (podRestarts st))]

/-- `node.status.conditions.find(c => c.type === 'Ready')?.status ||
'Unknown'`: the first `Ready` condition's status, with both a missing
condition and a falsy status value replaced by `"Unknown"`. -/
def nodeReadyStatus (conds : List NodeCondition) : String :=
  match conds.find? (fun c => c.type == some "Ready") with
  | none => "Unknown"
  | some c =>
    match c.status with
    | none => "Unknown"
    | some s => if s = "" then "Unknown" else s

/-- The node projection of `executeSQLLikeQuery`.  It dereferences
`metadata`, `status`, `status.conditions` (via `.find`) and
`status.nodeInfo`, so any of those being absent throws. -/
def projectNode (n : Node) : Except String JSObj :=
  match n.metadata with
  | none => .error typeErrorMsg
  | some m =>
    match n.status with
    | none => .error typeErrorMsg
    | some st =>
      match st.conditions with
      | none => .error typeErrorMsg
      | some conds =>
        match st.nodeInfo with
        | none => .error typeErrorMsg
        | some ni => .ok
          [("name", jsOfOptStr m.name),
           ("status", .str (nodeReadyStatus conds)),
           ("version", jsOfOptStr ni.kubeletVersion),
           ("os", jsOfOptStr ni.osImage),
           ("arch", jsOfOptStr ni.architecture),
           ("created", jsOfOptStr m.creationTimestamp)]

/-- The deployment projection of `executeSQLLikeQuery`; the three
replica counts use `|| 0`. -/
def projectDeployment (d : Deployment) : Except String JSObj :=
  match d.metadata with
  | none => .error typeErrorMsg
  | some m =>
    match d.status with
    | none => .error typeErrorMsg
    | some st => .ok
      [("name", jsOfOptStr m.name),
       ("namespace", jsOfOptStr m.«namespace»),
       ("replicas", .num (st.replicas.getD 0)),
       ("ready", .num (st.readyReplicas.getD 0)),
       ("available", .num (st.availableReplicas.getD 0)),
       ("created", jsOfOptStr m.creationTimestamp)]

/-- Template rendering of one port:
`` `${p.port}:${p.targetPort}/${p.protocol}` ``; an absent field prints
as `undefined`. -/
def renderPort (p : ServicePort) : String :=
  (match p.port with | some n => toString n | none => "undefined") ++ ":" ++
  (p.targetPort.getD "undefined") ++ "/" ++ (p.protocol.getD "undefined")

/-- `service.spec.ports?.map(...).join(', ') || 'N/A'`: an absent ports
list yields `undefined`, an empty one joins to `""`, and both are falsy,
hence `"N/A"`. -/
def servicePortsStr (ports : Option (List ServicePort)) : String :=
  match ports with
  | none => "N/A"
  | some ps =>
    let joined := String.intercalate ", " (ps.map renderPort)
    if joined = "" then "N/A" else joined

/-- The service projection of `executeSQLLikeQuery`; it dereferences
`metadata` and `spec`. -/
def projectService (s : Service) : Except String JSObj :=
  match s.metadata with
  | none => .error typeErrorMsg
  | some m =>
    match s.spec with
    | none => .error typeErrorMsg
    | some sp => .ok
      [("name", jsOfOptStr m.name),
       ("namespace", jsOfOptStr m.«namespace»),
       ("type", jsOfOptStr sp.type),
       ("clusterIP", jsOfOptStr sp.clusterIP),
       ("ports", .str (servicePortsStr sp.ports))]

/-- Outcome of an awaited JavaScript promise: resolved value or thrown
error message. -/
inductive JsResult (α : Type) where
  | ok (a : α)
  | thrown (msg : String)
deriving DecidableEq

/-- The collaborators of the Kubernetes route: the lists the
orchestration client returns for each resource kind, and the resolved
outcome of spawning kubectl with a verb and arguments (the `KubeResult`
is the value `executeKubectl` resolves with). -/
structure ClusterEnv where
  pods : List Pod
  nodes : List Node
  deployments : List Deployment
  services : List Service
  kubectl : String → List String → JsResult KubeResult

/-- JavaScript `s.startsWith(p)`. -/
def jsStartsWith (s p : String) : Bool := litThen p.data matchEnd s.data

/-- `executeSQLLikeQuery`: uppercase and trim the statement, prefix-match
it against the four supported phrases in source order, list the matching
resource kind and project each object; any unmatched statement throws. -/
def executeSQLLikeQuery (env : ClusterEnv) (sqlQuery : String) : Except String (List JSObj) :=
  let upperQuery := jsTrimStr (jsToUpper sqlQuery)
  if jsStartsWith upperQuery "SELECT * FROM PODS" then
    env.pods.mapM projectPod
  else if jsStartsWith upperQuery "SELECT * FROM DEPLOYMENTS" then
    env.deployments.mapM projectDeployment
  else if jsStartsWith upperQuery "SELECT * FROM SERVICES" then
    env.services.mapM projectService
  else if jsStartsWith upperQuery "SELECT * FROM NODES" then
    env.nodes.mapM projectNode
  else
    .error "Unsupported SQL query. Try: SELECT * FROM PODS|DEPLOYMENTS|SERVICES|NODES"

/-!  ## The two execute routes, with an explicit effect trace

Each route handler is embedded as a function of the request and an
environment giving the collaborators' outcomes.  Alongside its HTTP
response it returns the list of externally visible effects it performed,
in order: spawning the kubectl process, opening a warehouse connection,
executing a warehouse statement, destroying the connection.  `try`,
`catch` and `finally` are translated explicitly: the snowflake handler
is split into the body of its `try` block (which also reports whether
the `connection` variable was assigned) and a wrapper that applies the
`catch` conversion and then the `finally` release. -/

/-- Externally visible effects of a request. -/
inductive Event where
  | spawnProcess (verb : String) (args : List String)
  | connectWarehouse
  | executeStatement (q : String)
  | destroyWarehouse
deriving DecidableEq

/-- `query.substring(0, 200)`. -/
def jsSubstr200 (s : String) : String := String.mk (s.data.take 200)

/-- Response of the Kubernetes execute route: a success carries the
normalized envelope, the truncated query echo and the query type; a
failure carries the error category, the message, and the truncated
query echo when the handler reached its `try` block. -/
inductive KResponse where
  | success (data : ResultEnvelope) (query : String) (queryType : String)
  | failure (error : String) (message : String) (query : Option String)
deriving DecidableEq

/-- The Kubernetes route's `POST /execute` handler.  Validation, the
kubectl branch with its whitelist, the SQL branch, and the catch-all
`Invalid query type` throw are translated in source order; the `catch`
block turns any thrown message into a 500 `Query execution failed`
response.  (A non-string request body, also rejected by the first
check, is outside the embedding.) -/
def kubernetesExecuteRun (query : String) (queryType : String) (env : ClusterEnv) :
    KResponse × List Event :=
  if query = "" then
    (.failure "Invalid query" "Query must be a non-empty string" none, [])
  else if queryType = "kubectl" then
    let args := jsSplitWs (jsTrimStr query)
    let command := args.headD ""
    let commandArgs := args.tail
    if allowedCommands.contains command then
      match env.kubectl command commandArgs with
      | .ok r =>
        (.success (formatKubernetesResult r) (jsSubstr200 query) queryType,
         [.spawnProcess command commandArgs])
      | .thrown m =>
        (.failure "Query execution failed" m (some (jsSubstr200 query)),
         [.spawnProcess command commandArgs])
    else
      (.failure "Command not allowed"
        ("Only these commands are allowed: " ++ String.intercalate ", " allowedCommands)
        none, [])
  else if queryType = "sql" then
    match executeSQLLikeQuery env query with
    | .ok objs =>
      (.success (formatKubernetesResult (.list objs)) (jsSubstr200 query) queryType, [])
    | .error m =>
      (.failure "Query execution failed" m (some (jsSubstr200 query)), [])
  else
    (.failure "Query execution failed" "Invalid query type. Use \"kubectl\" or \"sql\""
      (some (jsSubstr200 query)), [])

/-- The value `executeQuery` resolves with on the warehouse path
(column metadata and statement id omitted: no claim consumes them). -/
structure QueryResult where
  columns : List String
  rows : List JSObj
  rowCount : Nat
deriving DecidableEq

/-- The collaborators of the warehouse route: the outcome of
`createConnection()` and, per statement, the outcome of
`executeQuery`. -/
structure WarehouseEnv where
  connectOutcome : JsResult Unit
  executeOutcome : String → JsResult QueryResult

/-- Response of the snowflake execute route. -/
inductive SfResponse where
  | success (data : QueryResult) (query : String)
  | failure (error : String) (message : String) (query : Option String)
deriving DecidableEq

/-- The `try` block of the snowflake handler: connect, then execute.
Returns the block's outcome, whether the `connection` variable was
assigned (which the `finally` block tests), and the effects so far. -/
def snowflakeTryBody (query : String) (env : WarehouseEnv) :
    JsResult SfResponse × Bool × List Event :=
  match env.connectOutcome with
  | .thrown m => (.thrown m, false, [])
  | .ok _ =>
    match env.executeOutcome query with
    | .thrown m => (.thrown m, true, [.connectWarehouse, .executeStatement query])
    | .ok r =>
      (.ok (.success r (jsSubstr200 query)), true,
       [.connectWarehouse, .executeStatement query])

/-- The snowflake route's `POST /execute` handler: validation, the
injection guard, then the `try` body, the `catch` conversion of a
thrown message into a 500 response, and the `finally` release that
destroys the connection exactly when it was assigned. -/
def snowflakeExecuteRun (query : String) (env : WarehouseEnv) :
    SfResponse × List Event :=
  if query = "" then
    (.failure "Invalid query" "Query must be a non-empty string" none, [])
  else if isSuspicious query then
    (.failure "Query blocked" "Query contains potentially dangerous operations" none, [])
  else
    match snowflakeTryBody query env with
    | (res, connAssigned, tr) =>
      let resp :=
        match res with
        | .ok r => r
        | .thrown m => .failure "Query execution failed" m (some (jsSubstr200 query))
      (resp, tr ++ (if connAssigned then [Event.destroyWarehouse] else []))

/-!  ## Stdout resolution of executeKubectl

On a zero exit code the route runs

    const result = stdout.trim();
    resolve(result.startsWith('\x7b') || result.startsWith('[') ? JSON.parse(result) : result);

inside a `try` whose `catch` resolves with `stdout.trim()`.  `JSON.parse`
is a platform collaborator; it is modelled below by a standard JSON
grammar parser (strings with the standard escapes — astral surrogate
pairs excepted —, integer/fraction/exponent number literals, arrays,
objects, `true`/`false`/`null`, and the four JSON whitespace
characters).  Objects with duplicate keys keep both bindings; no input
of this development has any. -/

/-- Parsed JSON values; number literals are kept as their source text. -/
inductive Json where
  | str (s : String)
  | num (lit : String)
  | bool (b : Bool)
  | null
  | arr (elems : List Json)
  | obj (fields : List (String × Json))

/-- Skip JSON whitespace (space, tab, newline, carriage return). -/
def skipJWs (l : List Char) : List Char :=
  l.dropWhile (fun c => c = ' ' || c = '\t' || c = '\n' || c = '\r')

/-- Value of one hexadecimal digit (digits, then the two letter
ranges, via their code points). -/
def hexVal (c : Char) : Option Nat :=
  let n := c.toNat
  if 48 ≤ n && n ≤ 57 then some (n - 48)
  else if 97 ≤ n && n ≤ 102 then some (n - 87)
  else if 65 ≤ n && n ≤ 70 then some (n - 55)
  else none

/-- The character denoted by a one-letter JSON escape code, when the
code is valid. -/
def jsonEscapeCode (e : Char) : Option Char :=
  if e = '"' || e = '\\' || e = '/' then some e
  else if e = 'b' then some '\x08'
  else if e = 'f' then some '\x0c'
  else if e = 'n' then some '\n'
  else if e = 'r' then some '\r'
  else if e = 't' then some '\t'
  else none

/-- JSON string body, after the opening quote: standard escapes, raw
control characters rejected; returns the string and the input after the
closing quote. -/
def parseJStrAux : List Char → List Char → Option (String × List Char)
  | [], _ => none
  | c :: rest, acc =>
    if c = '"' then some (String.mk acc.reverse, rest)
    else if c = '\\' then
      match rest with
      | 'u' :: h1 :: h2 :: h3 :: h4 :: rest2 =>
        match hexVal h1, hexVal h2, hexVal h3, hexVal h4 with
        | some a, some b, some d, some e =>
          parseJStrAux rest2 (Char.ofNat (((a * 16 + b) * 16 + d) * 16 + e) :: acc)
        | _, _, _, _ => none
      | e :: rest2 =>
        match jsonEscapeCode e with
        | some decoded => parseJStrAux rest2 (decoded :: acc)
        | none => none
      | [] => none
    else if c.toNat < 32 then none
    else parseJStrAux rest (c :: acc)

/-- Decimal digit test. -/
def isDig (c : Char) : Bool := '0' ≤ c && c ≤ '9'

/-- Optional fraction part `.digits`. -/
def parseJFrac : List Char → Option (List Char × List Char)
  | '.' :: r =>
    match r.span isDig with
    | ([], _) => none
    | (ds, rest) => some ('.' :: ds, rest)
  | l => some ([], l)

/-- Optional exponent part `(e|E)(+|-)?digits`. -/
def parseJExp (l : List Char) : Option (List Char × List Char) :=
  match l with
  | c :: r =>
    if c = 'e' || c = 'E' then
      let (sgn, r1) :=
        match r with
        | '+' :: rr => (['+'], rr)
        | '-' :: rr => (['-'], rr)
        | _ => ([], r)
      match r1.span isDig with
      | ([], _) => none
      | (ds, rest) => some (c :: (sgn ++ ds), rest)
    else some ([], c :: r)
  | [] => some ([], [])

/-- A JSON number literal: optional minus, `0` or a nonzero-led digit
run, optional fraction and exponent; returns its source text. -/
def parseJNum (l : List Char) : Option (String × List Char) :=
  let (sign, l1) :=
    match l with
    | '-' :: r => (['-'], r)
    | _ => ([], l)
  let intPart : Option (List Char × List Char) :=
    match l1 with
    | '0' :: r => some (['0'], r)
    | c :: r =>
      if isDig c then
        match r.span isDig with
        | (ds, rest) => some (c :: ds, rest)
      else none
    | [] => none
  match intPart with
  | none => none
  | some (ip, r2) =>
    match parseJFrac r2 with
    | none => none
    | some (fp, r3) =>
      match parseJExp r3 with
      | none => none
      | some (ep, r4) => some (String.mk (sign ++ ip ++ fp ++ ep), r4)

mutual

/-- One JSON value, leading whitespace allowed; fuel bounds the nesting
and iteration depth. -/
def parseJValue : Nat → List Char → Option (Json × List Char)
  | 0, _ => none
  | Nat.succ fuel, l =>
    match skipJWs l with
    | '"' :: rest => (parseJStrAux rest []).map (fun p => (Json.str p.1, p.2))
    | '\x7b' :: rest => parseJObjStart fuel rest
    | '[' :: rest => parseJArrStart fuel rest
    | 't' :: 'r' :: 'u' :: 'e' :: rest => some (.bool true, rest)
    | 'f' :: 'a' :: 'l' :: 's' :: 'e' :: rest => some (.bool false, rest)
    | 'n' :: 'u' :: 'l' :: 'l' :: rest => some (.null, rest)
    | l' => (parseJNum l').map (fun p => (Json.num p.1, p.2))

/-- Array body after `[`: empty array or a comma-separated item list. -/
def parseJArrStart : Nat → List Char → Option (Json × List Char)
  | 0, _ => none
  | Nat.succ fuel, l =>
    match skipJWs l with
    | ']' :: rest => some (.arr [], rest)
    | l' => parseJArrItems fuel l' []

/-- Items of a non-empty array. -/
def parseJArrItems : Nat → List Char → List Json → Option (Json × List Char)
  | 0, _, _ => none
  | Nat.succ fuel, l, acc =>
    match parseJValue fuel l with
    | none => none
    | some (v, rest) =>
      match skipJWs rest with
      | ',' :: r2 => parseJArrItems fuel r2 (v :: acc)
      | ']' :: r2 => some (.arr (v :: acc).reverse, r2)
      | _ => none

/-- Object body after the opening brace: empty object or a
comma-separated member list. -/
def parseJObjStart : Nat → List Char → Option (Json × List Char)
  | 0, _ => none
  | Nat.succ fuel, l =>
    match skipJWs l with
    | '\x7d' :: rest => some (.obj [], rest)
    | l' => parseJObjItems fuel l' []

/-- Members of a non-empty object. -/
def parseJObjItems : Nat → List Char → List (String × Json) → Option (Json × List Char)
  | 0, _, _ => none
  | Nat.succ fuel, l, acc =>
    match skipJWs l with
    | '"' :: rest =>
      match parseJStrAux rest [] with
      | none => none
      | some (k, r1) =>
        match skipJWs r1 with
        | ':' :: r2 =>
          match parseJValue fuel r2 with
          | none => none
          | some (v, r3) =>
            match skipJWs r3 with
            | ',' :: r4 => parseJObjItems fuel r4 ((k, v) :: acc)
            | '\x7d' :: r4 => some (.obj ((k, v) :: acc).reverse, r4)
            | _ => none
        | _ => none
    | _ => none

end

/-- `JSON.parse`: one value followed only by whitespace. -/
def jsonParse (s : String) : Option Json :=
  match parseJValue (2 * s.length + 4) s.data with
  | none => none
  | some (j, rest) =>
    match skipJWs rest with
    | [] => some j
    | _ => none

example : jsonParse "[1, 2]" = some (.arr [.num "1", .num "2"]) := rfl
example : jsonParse " \x7b\"a\": -1.5e3, \"b\": [true, null]\x7d " =
    some (.obj [("a", .num "-1.5e3"), ("b", .arr [.bool true, .null])]) := rfl
example : jsonParse "\x7b" = none := rfl
example : jsonParse "[01]" = none := rfl

/-- What `executeKubectl` resolves with on exit code zero: either plain
text or a parsed JSON value. -/
inductive ResolvedShape where
  | text (s : String)
  | parsedJson (j : Json)

/-- Does the trimmed stdout look like JSON to the route's test? -/
def jsonLooking (s : String) : Bool :=
  jsStartsWith s "\x7b" || jsStartsWith s "["

/-- The resolution step of `executeKubectl` on a zero exit code:
JSON-looking trimmed stdout is passed to `JSON.parse` inside a `try`;
a parse failure is caught and resolves with the trimmed stdout as plain
text; anything else resolves as plain text directly. -/
def resolveStdout (stdout : String) : ResolvedShape :=
  let result := jsTrimStr stdout
  if jsonLooking result then
    match jsonParse result with
    | some j => .parsedJson j
    | none => .text (jsTrimStr stdout)
  else .text result

/-!  ## Concrete environments used by witnesses and counterexamples  -/

/-- A cluster whose client returns no resources and whose kubectl spawn
resolves with empty stdout. -/
def quietClusterEnv : ClusterEnv :=
  ⟨[], [], [], [], fun _ _ => .ok (.text "")⟩

/-- A warehouse whose connection and statement execution both
succeed. -/
def healthyWarehouseEnv : WarehouseEnv :=
  ⟨.ok (), fun _ => .ok ⟨["VERSION"], [[("VERSION", .str "8.0")]], 1⟩⟩

/-!  ## Claims  -/

/-- C1: for every verb not in the fixed whitelist, executing a Cluster
request in NativeCommand (`kubectl`) mode returns the `Command not
allowed` failure whose message lists the allowed set, and the effect
trace is empty — in particular no external process is spawned.  The
verb is the first whitespace token of the trimmed query; the query must
be non-empty to get past the input validation that precedes the
whitelist. -/
theorem whitelist_rejects_unlisted_verb (query queryType : String) (env : ClusterEnv)
    (hqt : queryType = "kubectl") (hq : query ≠ "")
    (hverb : allowedCommands.contains ((jsSplitWs (jsTrimStr query)).headD "") = false) :
    kubernetesExecuteRun query queryType env =
      (.failure "Command not allowed"
        "Only these commands are allowed: get, describe, logs, top, explain, api-resources, api-versions, cluster-info"
        none, []) := by
  subst hqt
  unfold kubernetesExecuteRun
  simp only [if_neg hq, if_pos rfl, hverb, Bool.false_eq_true, if_false]
  rfl

/-- Witness for C1: the verb `delete` is rejected with the listing
message and an empty effect trace. -/
theorem whitelist_rejects_unlisted_verb_witness :
    kubernetesExecuteRun "delete pods web-1" "kubectl" quietClusterEnv =
      (.failure "Command not allowed"
        "Only these commands are allowed: get, describe, logs, top, explain, api-resources, api-versions, cluster-info"
        none, []) :=
  whitelist_rejects_unlisted_verb "delete pods web-1" "kubectl" quietClusterEnv rfl
    (by decide) (by decide)

/-- C2: every statement matching one of the four injection patterns is
answered with the `Query blocked` failure and an empty effect trace —
no connection is opened — and none of the literal non-malicious example
statements of the spec's testable-properties section is flagged by the
guard. -/
theorem guard_blocks_suspicious :
    (∀ (q : String) (env : WarehouseEnv), isSuspicious q = true →
      snowflakeExecuteRun q env =
        (.failure "Query blocked" "Query contains potentially dangerous operations" none,
         [])) ∧
    isSuspicious "select * from pods" = false ∧
    isSuspicious "SELECT * FROM PODS" = false ∧
    isSuspicious "get nodes" = false ∧
    isSuspicious "" = false := by
  refine ⟨?_, by decide, by decide, by decide, by decide⟩
  intro q env hs
  have hq : q ≠ "" := by
    intro h
    rw [h] at hs
    exact absurd hs (by decide)
  unfold snowflakeExecuteRun
  simp only [if_neg hq, hs, if_pos rfl]
  rfl

/-- Witness for C2: `DROP TABLE users` is blocked with no effects. -/
theorem guard_blocks_suspicious_witness :
    snowflakeExecuteRun "DROP TABLE users" healthyWarehouseEnv =
      (.failure "Query blocked" "Query contains potentially dangerous operations" none,
       []) :=
  guard_blocks_suspicious.1 "DROP TABLE users" healthyWarehouseEnv (by decide)

/-- C3: on the warehouse execute path every acquired connection is
destroyed: in the effect trace of any request against any collaborator
outcome, connection acquisitions and connection releases are equal in
number (both are 0 or both are 1), across success, statement failure
and connection failure. -/
theorem warehouse_connection_always_released (query : String) (env : WarehouseEnv) :
    (snowflakeExecuteRun query env).2.count Event.connectWarehouse =
      (snowflakeExecuteRun query env).2.count Event.destroyWarehouse := by
  unfold snowflakeExecuteRun snowflakeTryBody
  by_cases h1 : query = "" <;>
    by_cases h2 : isSuspicious query <;>
      cases hc : env.connectOutcome <;>
        cases he : env.executeOutcome query <;>
          simp [h1, h2, hc, he, List.count_cons, List.count_nil]

/-- Counterexample to C4: the validation is `!query`, which only the
empty string fails, so the whitespace-only query `" "` is not rejected —
on the warehouse path it reaches the backend (a connection is opened)
instead of producing the `InvalidInput` failure. -/
theorem whitespace_query_not_rejected :
    (snowflakeExecuteRun " " healthyWarehouseEnv).1 ≠
      SfResponse.failure "Invalid query" "Query must be a non-empty string" none ∧
    Event.connectWarehouse ∈ (snowflakeExecuteRun " " healthyWarehouseEnv).2 := by
  decide

/-- C4 as amended: a request whose text is the empty string gets the
`Failure(InvalidInput, "Query must be a non-empty string")` response
with an empty effect trace — before any backend call — on both the
warehouse and the cluster target (whitespace-only non-empty text passes
this validation and proceeds to dispatch). -/
theorem empty_query_rejected_before_backend (wenv : WarehouseEnv) (cenv : ClusterEnv)
    (queryType : String) :
    snowflakeExecuteRun "" wenv =
      (.failure "Invalid query" "Query must be a non-empty string" none, []) ∧
    kubernetesExecuteRun "" queryType cenv =
      (.failure "Invalid query" "Query must be a non-empty string" none, []) := by
  exact ⟨rfl, rfl⟩

/-- C5: the plain-text branch of the normalizer splits on the literal
two-character sequence `\n` (the source says `split('\\n')`) and
tokenizes on a literal backslash followed by `s` (the source says
`/\\s+/`), so a real multi-line tabular stdout — which contains newline
characters, not backslash-n sequences — is never tabularized: it comes
back as a `MessageResult` carrying the whole text with `rowCount` 0,
where the claim (and the code's own comments) promise a
`TabularResult`. -/
theorem plaintext_multiline_not_tabularized :
    formatKubernetesResult (.text "NAME STATUS\nnode1 Ready") =
      .message "NAME STATUS\nnode1 Ready" 0 ∧
    formatKubernetesResult (.text "NAME STATUS\nnode1 Ready") ≠
      .tabular ["NAME", "STATUS"] [[.str "node1", .str "Ready"]] 1 := by
  decide

/-- Counterexample to C6: the resource projections are not resilient to
partial objects.  A pod whose `status` object is absent makes the
translator throw (the projection dereferences `pod.status.phase`), and
a present `metadata` with an absent `name` leaf projects to `undefined`,
not to the empty string. -/
theorem translator_fails_on_partial_pod :
    executeSQLLikeQuery ⟨[⟨some ⟨some "web-1", some "default", some "t0"⟩, none⟩],
        [], [], [], fun _ _ => .ok (.text "")⟩ "SELECT * FROM PODS" =
      .error typeErrorMsg ∧
    projectPod ⟨some ⟨none, some "default", none⟩, some ⟨some "Running", none⟩⟩ =
      .ok [("name", .undefined), ("namespace", .str "default"), ("status", .str "Running"),
           ("created", .undefined), ("restarts", .num 0)] ∧
    JSVal.undefined ≠ JSVal.str "" := by
  exact ⟨rfl, rfl, by decide⟩

/-- C6 as amended: the projection of each of the four resource kinds
succeeds whenever the intermediate objects it dereferences are present
(`metadata` plus `status` for pods, nodes and deployments — nodes also
need `status.conditions` and `status.nodeInfo` — and `metadata` plus
`spec` for services).  The explicitly defaulted fields come out as
their zero-values (pod restarts and the three deployment counts to `0`,
the node `Ready` condition to `"Unknown"`, service ports to `"N/A"`);
every other absent leaf becomes `undefined` in the projected object and
is coerced to `""` only later, by the normalizer's `|| ''`.  An absent
intermediate object, by contrast, makes the projection throw. -/
theorem translator_zero_values_amended :
    (∀ (m : ObjectMeta) (st : PodStatus),
      projectPod ⟨some m, some st⟩ =
        .ok [("name", jsOfOptStr m.name), ("namespace", jsOfOptStr m.«namespace»),
             ("status", jsOfOptStr st.phase), ("created", jsOfOptStr m.creationTimestamp),
             ("restarts", .num (podRestarts st))]) ∧
    (∀ (ph : Option String), podRestarts ⟨ph, none⟩ = 0) ∧
    (∀ (m : ObjectMeta) (conds : List NodeCondition) (ni : NodeInfo),
      projectNode ⟨some m, some ⟨some conds, some ni⟩⟩ =
        .ok [("name", jsOfOptStr m.name), ("status", .str (nodeReadyStatus conds)),
             ("version", jsOfOptStr ni.kubeletVersion), ("os", jsOfOptStr ni.osImage),
             ("arch", jsOfOptStr ni.architecture),
             ("created", jsOfOptStr m.creationTimestamp)]) ∧
    nodeReadyStatus [] = "Unknown" ∧
    (∀ (m : ObjectMeta) (st : DeploymentStatus),
      projectDeployment ⟨some m, some st⟩ =
        .ok [("name", jsOfOptStr m.name), ("namespace", jsOfOptStr m.«namespace»),
             ("replicas", .num (st.replicas.getD 0)),
             ("ready", .num (st.readyReplicas.getD 0)),
             ("available", .num (st.availableReplicas.getD 0)),
             ("created", jsOfOptStr m.creationTimestamp)]) ∧
    (∀ (m : ObjectMeta) (sp : ServiceSpec),
      projectService ⟨some m, some sp⟩ =
        .ok [("name", jsOfOptStr m.name), ("namespace", jsOfOptStr m.«namespace»),
             ("type", jsOfOptStr sp.type), ("clusterIP", jsOfOptStr sp.clusterIP),
             ("ports", .str (servicePortsStr sp.ports))]) ∧
    servicePortsStr none = "N/A" ∧
    jsOrEmpty JSVal.undefined = JSVal.str "" ∧
    (∀ p : Pod, p.status = none → projectPod p = .error typeErrorMsg) := by
  refine ⟨fun m st => rfl, fun ph => rfl, fun m conds ni => rfl, rfl,
    fun m st => rfl, fun m sp => rfl, rfl, rfl, ?_⟩
  intro p hp
  obtain ⟨pm, ps⟩ := p
  cases hp
  cases pm <;> rfl

/-- Witness for C6 as amended: the last conjunct applied to a pod with
`metadata` present and `status` absent. -/
theorem translator_zero_values_amended_witness :
    projectPod ⟨some ⟨some "web-1", some "default", some "t0"⟩, none⟩ =
      .error typeErrorMsg :=
  translator_zero_values_amended.2.2.2.2.2.2.2.2
    ⟨some ⟨some "web-1", some "default", some "t0"⟩, none⟩ rfl

/-- Scenario A's orchestration client: two pods, the first with a
recorded restart count of 5, the second with no container statuses at
all (no recorded restart count). -/
def twoPodEnv : ClusterEnv :=
  ⟨[⟨some ⟨some "web-1", some "default", some "2024-01-01T00:00:00Z"⟩,
      some ⟨some "Running", some [⟨some 5⟩]⟩⟩,
    ⟨some ⟨some "web-2", some "default", some "2024-01-02T00:00:00Z"⟩,
      some ⟨some "Pending", none⟩⟩],
   [], [], [], fun _ _ => .ok (.text "")⟩

/-- Counterexample to C7: in Scenario A the resulting row of the pod
with no recorded restart count does not carry `0` — the translator does
default the projected `restarts` to `0`, but the normalizer's
`obj[col] || ''` coerces that falsy `0` to `""`, so the response is not
the one the claim describes. -/
theorem scenarioA_restarts_cell_not_zero :
    kubernetesExecuteRun "SELECT * FROM PODS" "sql" twoPodEnv ≠
      (.success
        (.tabular ["name", "namespace", "status", "created", "restarts"]
          [[.str "web-1", .str "default", .str "Running",
            .str "2024-01-01T00:00:00Z", .num 5],
           [.str "web-2", .str "default", .str "Pending",
            .str "2024-01-02T00:00:00Z", .num 0]] 2)
        "SELECT * FROM PODS" "sql", []) := by
  decide

/-- C7 as amended: Scenario A yields a `TabularResult` with columns
`[name, namespace, status, created, restarts]` and exactly one row per
pod; the pod with no recorded restart count has its `restarts`
projected as `0` and then coerced to `""` in the resulting row (the
pod with restart count 5 keeps `5`). -/
theorem scenarioA_restarts_cell_empty :
    kubernetesExecuteRun "SELECT * FROM PODS" "sql" twoPodEnv =
      (.success
        (.tabular ["name", "namespace", "status", "created", "restarts"]
          [[.str "web-1", .str "default", .str "Running",
            .str "2024-01-01T00:00:00Z", .num 5],
           [.str "web-2", .str "default", .str "Pending",
            .str "2024-01-02T00:00:00Z", .str ""]] 2)
        "SELECT * FROM PODS" "sql", []) := by
  decide

/-- The list branch of the normalizer on a non-empty list, spelled
out. -/
theorem formatList_cons (first : JSObj) (rest : List JSObj) :
    formatKubernetesResult (.list (first :: rest)) =
      .tabular (jsKeys first)
        ((first :: rest).map (fun o => (jsKeys first).map (fun col => jsOrEmpty (jsLookup o col))))
        ((first :: rest).map (fun o => (jsKeys first).map (fun col => jsOrEmpty (jsLookup o col)))).length :=
  rfl

/-- C8: whenever the translator's output, normalized, is a
`TabularResult`, every row has exactly as many cells as there are
columns. -/
theorem translator_rows_match_columns (env : ClusterEnv) (q : String)
    (cols : List String) (rows : List (List JSVal)) (n : Nat)
    (h : (executeSQLLikeQuery env q).map (fun objs => formatKubernetesResult (.list objs)) =
      .ok (.tabular cols rows n)) :
    ∀ r ∈ rows, r.length = cols.length := by
  cases hq : executeSQLLikeQuery env q with
  | error m =>
    rw [hq] at h
    exact absurd h (by simp [Except.map])
  | ok objs =>
    rw [hq] at h
    simp only [Except.map] at h
    injection h with h
    cases objs with
    | nil => exact absurd h (by simp [formatKubernetesResult])
    | cons first rest =>
      rw [formatList_cons] at h
      injection h with hcols hrows hn
      subst hcols
      subst hrows
      intro r hr
      obtain ⟨o, _, rfl⟩ := List.mem_map.mp hr
      simp

/-- Witness for C8: the second Scenario A row has as many cells as the
five columns. -/
theorem translator_rows_match_columns_witness :
    [JSVal.str "web-2", JSVal.str "default", JSVal.str "Pending",
     JSVal.str "2024-01-02T00:00:00Z", JSVal.str ""].length =
      (["name", "namespace", "status", "created", "restarts"] : List String).length :=
  translator_rows_match_columns twoPodEnv "SELECT * FROM PODS"
    ["name", "namespace", "status", "created", "restarts"]
    [[.str "web-1", .str "default", .str "Running", .str "2024-01-01T00:00:00Z", .num 5],
     [.str "web-2", .str "default", .str "Pending", .str "2024-01-02T00:00:00Z", .str ""]]
    2 rfl
    [JSVal.str "web-2", JSVal.str "default", JSVal.str "Pending",
     JSVal.str "2024-01-02T00:00:00Z", JSVal.str ""]
    (by decide)

/-- Counterexample to C9: the stdout `"\x7b"` begins with a brace — it
is JSON-looking — yet it resolves onto the plain-text path, because
`JSON.parse` throws on it and the `catch` resolves with the trimmed
text.  So it is not the case that only non-JSON-looking stdout takes
the plain-text path. -/
theorem json_looking_stdout_takes_text_path :
    resolveStdout "\x7b" = .text "\x7b" ∧ jsonLooking (jsTrimStr "\x7b") = true :=
  ⟨rfl, rfl⟩

/-- C9 as amended: trimmed stdout is JSON-parsed whenever it begins
with a brace or a bracket; when the parse succeeds, the parsed value —
an object or array, never text — is what enters the normalizer; when
the parse fails (malformed JSON-looking stdout), and likewise when the
stdout is not JSON-looking at all, the trimmed text takes the
plain-text path. -/
theorem stdout_resolution_amended (stdout : String) :
    (jsonLooking (jsTrimStr stdout) = false →
      resolveStdout stdout = .text (jsTrimStr stdout)) ∧
    (jsonLooking (jsTrimStr stdout) = true →
      ∀ j, jsonParse (jsTrimStr stdout) = some j →
        resolveStdout stdout = .parsedJson j) ∧
    (jsonLooking (jsTrimStr stdout) = true → jsonParse (jsTrimStr stdout) = none →
      resolveStdout stdout = .text (jsTrimStr stdout)) := by
  unfold resolveStdout
  refine ⟨fun h => ?_, fun h j hj => ?_, fun h hn => ?_⟩
  · simp [h]
  · simp [h, hj]
  · simp [h, hn]

/-- Witness for C9 as amended: a JSON array stdout resolves to the
parsed value. -/
theorem stdout_resolution_amended_witness :
    resolveStdout " [1, 2]" = .parsedJson (.arr [.num "1", .num "2"]) :=
  (stdout_resolution_amended " [1, 2]").2.1 rfl (.arr [.num "1", .num "2"]) rfl

/-- Lookup of a key bound at the head. -/
theorem jsLookup_cons_self (c : String) (v : JSVal) (o : JSObj) :
    jsLookup ((c, v) :: o) c = v := by
  simp [jsLookup, List.find?]

/-- Lookup skips a head binding with a different key. -/
theorem jsLookup_cons_ne (k : String) (v : JSVal) (o : JSObj) (c : String) (h : k ≠ c) :
    jsLookup ((k, v) :: o) c = jsLookup o c := by
  have hbeq : (k == c) = false := by simp [h]
  simp [jsLookup, List.find?, hbeq]

/-- Lookup of an unbound key is `undefined`. -/
theorem jsLookup_not_mem (o : JSObj) (c : String) (h : c ∉ jsKeys o) :
    jsLookup o c = .undefined := by
  induction o with
  | nil => rfl
  | cons p rest ih =>
    obtain ⟨k, w⟩ := p
    have hk : k ≠ c := by
      intro hkc
      exact h (by simp [jsKeys, hkc])
    have hrest : c ∉ jsKeys rest := by
      intro hc
      exact h (by simp [jsKeys] at hc ⊢; exact Or.inr hc)
    rw [jsLookup_cons_ne k w rest c hk]
    exact ih hrest

/-- Inserting a falsy binding for a key that is otherwise unbound does
not change any normalized cell of the object. -/
theorem jsLookup_insert_falsy (o1 o2 : JSObj) (c : String) (v : JSVal) (col : String)
    (hv : jsTruthy v = false) (h1 : c ∉ jsKeys o1) (h2 : c ∉ jsKeys o2) :
    jsOrEmpty (jsLookup (o1 ++ (c, v) :: o2) col) = jsOrEmpty (jsLookup (o1 ++ o2) col) := by
  induction o1 with
  | nil =>
    simp only [List.nil_append]
    by_cases hcol : col = c
    · subst hcol
      rw [jsLookup_cons_self, jsLookup_not_mem o2 col h2]
      unfold jsOrEmpty
      rw [hv]
      rfl
    · rw [jsLookup_cons_ne c v o2 col (Ne.symm hcol)]
  | cons p o1' ih =>
    obtain ⟨k, w⟩ := p
    have hk : c ∉ jsKeys o1' := by
      intro hc
      exact h1 (by simp [jsKeys] at hc ⊢; exact Or.inr hc)
    simp only [List.cons_append]
    by_cases hkcol : k = col
    · subst hkcol
      rw [jsLookup_cons_self, jsLookup_cons_self]
    · rw [jsLookup_cons_ne k w _ col hkcol, jsLookup_cons_ne k w _ col hkcol]
      exact ih hk

/-- C10: in list-of-objects normalization a present falsy cell value —
numeric 0, `false`, `null` or the empty string — produces the cell
`""`, exactly as if the key were missing from the object: inserting
such a binding anywhere into an object of the tail (for a key the
object does not otherwise bind) leaves the normalized result
unchanged. -/
theorem falsy_cell_equals_missing_cell :
    (∀ (first : JSObj) (pre post : List JSObj) (o1 o2 : JSObj) (c : String) (v : JSVal),
      jsTruthy v = false → c ∉ jsKeys o1 → c ∉ jsKeys o2 →
      formatKubernetesResult (.list (first :: (pre ++ (o1 ++ (c, v) :: o2) :: post))) =
        formatKubernetesResult (.list (first :: (pre ++ (o1 ++ o2) :: post)))) ∧
    jsOrEmpty (.num 0) = .str "" ∧ jsOrEmpty (.bool false) = .str "" ∧
    jsOrEmpty .null = .str "" ∧ jsOrEmpty (.str "") = .str "" := by
  refine ⟨?_, rfl, rfl, rfl, rfl⟩
  intro first pre post o1 o2 c v hv h1 h2
  have hfun : (fun col => jsOrEmpty (jsLookup (o1 ++ (c, v) :: o2) col)) =
      (fun col => jsOrEmpty (jsLookup (o1 ++ o2) col)) :=
    funext (fun col => jsLookup_insert_falsy o1 o2 c v col hv h1 h2)
  rw [formatList_cons, formatList_cons, List.map_cons, List.map_cons,
    List.map_append, List.map_append, List.map_cons, List.map_cons, hfun]

/-- Witness for C10: an object carrying `restarts: 0` normalizes
exactly like the same object with `restarts` missing. -/
theorem falsy_cell_equals_missing_cell_witness :
    formatKubernetesResult
        (.list [[("restarts", .num 5)], [("restarts", .num 0)]]) =
      formatKubernetesResult (.list [[("restarts", .num 5)], ([] : JSObj)]) :=
  falsy_cell_equals_missing_cell.1 [("restarts", .num 5)] [] [] [] [] "restarts"
    (.num 0) rfl (by decide) (by decide)
